import Mathlib

/-!
Verification of the mesh-metrics and view-fitting core of the `stl-viewer`
repository (`Model3DViewer` in the main script).  The definitions below are a
shallow embedding of the JavaScript source: Three.js `Vector3` operations
become operations on `Vec3` over the real numbers, the `BufferGeometry`
position/index attributes become a list of vertices plus an optional index
list, and the stateful viewer methods become pure state-passing functions on
`ViewerState`.
-/

namespace STLV

noncomputable section

/-- A 3-component vector, embedding `THREE.Vector3` with real coordinates. -/
@[ext]
structure Vec3 where
  x : ℝ
  y : ℝ
  z : ℝ

/-- `new THREE.Vector3().subVectors(a, b)`: componentwise difference. -/
def subVectors (a b : Vec3) : Vec3 :=
  ⟨a.x - b.x, a.y - b.y, a.z - b.z⟩

/-- `Vector3.crossVectors(a, b)` / `a.cross(b)` (value computed, mutation of the
receiver in Three.js is irrelevant because each loop iteration rebuilds the
vectors). -/
def crossVectors (a b : Vec3) : Vec3 :=
  ⟨a.y * b.z - a.z * b.y, a.z * b.x - a.x * b.z, a.x * b.y - a.y * b.x⟩

/-- `Vector3.dot`. -/
def vdot (a b : Vec3) : ℝ :=
  a.x * b.x + a.y * b.y + a.z * b.z

/-- `Vector3.length()`: Euclidean norm. -/
def vlength (v : Vec3) : ℝ :=
  Real.sqrt (vdot v v)

/-- `Vector3.lerpVectors(v1, v2, alpha)`: `v1 + (v2 - v1) * alpha`,
componentwise, exactly as Three.js computes it. -/
def lerpVectors (v1 v2 : Vec3) (alpha : ℝ) : Vec3 :=
  ⟨v1.x + (v2.x - v1.x) * alpha,
   v1.y + (v2.y - v1.y) * alpha,
   v1.z + (v2.z - v1.z) * alpha⟩

/-- An axis-aligned bounding box (`THREE.Box3`). -/
@[ext]
structure Box3 where
  min : Vec3
  max : Vec3

/-- `Box3.expandByPoint`: componentwise min/max against a vertex. -/
def expandByPoint (b : Box3) (v : Vec3) : Box3 :=
  ⟨⟨min b.min.x v.x, min b.min.y v.y, min b.min.z v.z⟩,
   ⟨max b.max.x v.x, max b.max.y v.y, max b.max.z v.z⟩⟩

/-- `BufferGeometry.computeBoundingBox()` over the position attribute:
fold `expandByPoint` over all vertices; an empty attribute yields the empty
box, modelled as `none`. -/
def computeBB : List Vec3 → Option Box3
  | [] => none
  | v :: vs => some (vs.foldl expandByPoint ⟨v, v⟩)

/-- `Box3.getCenter`: `(min + max) * 0.5`; Three.js returns the zero vector
for an empty box. -/
def getCenterD : Option Box3 → Vec3
  | none => ⟨0, 0, 0⟩
  | some b => ⟨(b.min.x + b.max.x) / 2, (b.min.y + b.max.y) / 2, (b.min.z + b.max.z) / 2⟩

/-- `Box3.getSize`: `max - min`; Three.js returns the zero vector for an
empty box. -/
def boxSizeD : Option Box3 → Vec3
  | none => ⟨0, 0, 0⟩
  | some b => subVectors b.max b.min

/-- The mesh buffer handed to the viewer by the STL/OBJ loader: the
`position` attribute as a vertex list and the optional `index` attribute. -/
@[ext]
structure MeshGeometry where
  positions : List Vec3
  index : Option (List ℕ)

/-- The geometry-centering step of `createModelFromGeometry`: compute the
bounding box, take its center and `geometry.translate(-center.x, -center.y,
-center.z)`, i.e. subtract the center from every vertex.  The index buffer is
untouched. -/
def centerGeometry (g : MeshGeometry) : MeshGeometry :=
  let c := getCenterD (computeBB g.positions)
  { g with positions := g.positions.map (fun v => subVectors v c) }

/-- `calculateTriangleArea(v1, v2, v3)`: half the length of
`(v2 - v1) x (v3 - v1)`. -/
def calculateTriangleArea (v1 v2 v3 : Vec3) : ℝ :=
  0.5 * vlength (crossVectors (subVectors v2 v1) (subVectors v3 v1))

/-- `calculateSignedVolume(v1, v2, v3)`: `v1 . (v2 x v3) / 6`. -/
def calculateSignedVolume (v1 v2 v3 : Vec3) : ℝ :=
  vdot v1 (crossVectors v2 v3) / 6

/-- The indexed loop of `calculateSurfaceAreaAndVolume`:
`for (i = 0; i < indices.count; i += 3)` reading index entries `i, i+1, i+2`
and the vertices they name, accumulating area and signed volume.  A read past
the end of a JS typed array yields `undefined` (propagating as NaN); the
embedding returns the zero entry / zero vector there — the loop structure,
which never validates a read, is what the claims are about. -/
def accumIndexed (pos : List Vec3) (idx : List ℕ) (i : ℕ) (sA sV : ℝ) : ℝ × ℝ :=
  if i < idx.length then
    let a := idx.getD i 0
    let b := idx.getD (i + 1) 0
    let c := idx.getD (i + 2) 0
    let v1 := pos.getD a ⟨0, 0, 0⟩
    let v2 := pos.getD b ⟨0, 0, 0⟩
    let v3 := pos.getD c ⟨0, 0, 0⟩
    accumIndexed pos idx (i + 3) (sA + calculateTriangleArea v1 v2 v3)
      (sV + calculateSignedVolume v1 v2 v3)
  else (sA, sV)
termination_by idx.length - i
decreasing_by omega

/-- The non-indexed loop of `calculateSurfaceAreaAndVolume`:
`for (i = 0; i < positions.count; i += 9)` reading `positions.getX(i)`,
`positions.getX(i+3)`, `positions.getX(i+6)` — these are VERTEX indices
(`BufferAttribute.getX(j)` reads `array[3*j]`), so the loop takes vertices
`i`, `i+3`, `i+6` and strides by 9 vertices per iteration.  Out-of-range
reads (NaN in JS) are modelled by the zero vector, as in `accumIndexed`. -/
def accumUnindexed (pos : List Vec3) (i : ℕ) (sA sV : ℝ) : ℝ × ℝ :=
  if i < pos.length then
    let v1 := pos.getD i ⟨0, 0, 0⟩
    let v2 := pos.getD (i + 3) ⟨0, 0, 0⟩
    let v3 := pos.getD (i + 6) ⟨0, 0, 0⟩
    accumUnindexed pos (i + 9) (sA + calculateTriangleArea v1 v2 v3)
      (sV + calculateSignedVolume v1 v2 v3)
  else (sA, sV)
termination_by pos.length - i
decreasing_by omega

/-- `calculateSurfaceAreaAndVolume(geometry)`: runs the indexed loop when an
index buffer is present, the stride-9 loop otherwise, and stores
`surfaceArea` and `Math.abs(volume)`. -/
def calculateSurfaceAreaAndVolume (g : MeshGeometry) : ℝ × ℝ :=
  match g.index with
  | some idx =>
      let r := accumIndexed g.positions idx 0 0 0
      (r.1, |r.2|)
  | none =>
      let r := accumUnindexed g.positions 0 0 0
      (r.1, |r.2|)

/-- The statistics record stored in `this.modelStats`.  `faces` is a real
number because the source assigns `indices.count / 3` (JS floating-point
division), not an integer. -/
structure ModelStats where
  vertices : ℕ
  faces : ℝ
  surfaceArea : ℝ
  volume : ℝ
  boundingBox : Option Box3

/-- `calculateModelStats(geometry)`: vertex count, `count / 3` face count
(float division), bounding box, and the area/volume pass. -/
def calculateModelStats (g : MeshGeometry) : ModelStats :=
  let sv := calculateSurfaceAreaAndVolume g
  { vertices := g.positions.length
    faces :=
      match g.index with
      | some idx => (idx.length : ℝ) / 3
      | none => (g.positions.length : ℝ) / 3
    surfaceArea := sv.1
    volume := sv.2
    boundingBox := computeBB g.positions }

/-- The face count actually shown to the user: `updateStatsDisplay` renders
`Math.floor(this.modelStats.faces)`. -/
def displayedFaceCount (st : ModelStats) : ℤ :=
  ⌊st.faces⌋

/-- The viewer state touched by the camera methods: the camera position, the
orbit-controls target, the camera's vertical field of view in degrees
(`camera.fov`, 75 by default), the `isTransitioning` flag and the currently
loaded model's geometry (`currentModel`, `null` before a load). -/
structure ViewerState where
  cameraPosition : Vec3
  controlsTarget : Vec3
  cameraFov : ℝ
  isTransitioning : Bool
  currentModel : Option MeshGeometry

/-- `this.camera.fov * (Math.PI / 180)` in `fitCameraToModel`. -/
def fovRadOf (s : ViewerState) : ℝ :=
  s.cameraFov * (Real.pi / 180)

/-- The distance computed by `fitCameraToModel`:
`Math.abs(maxDim / 2 / Math.tan(fov / 2))` followed by `cameraZ *= 2.5`. -/
def fitDistance (maxDim fov : ℝ) : ℝ :=
  |maxDim / 2 / Real.tan (fov / 2)| * 2.5

/-- `Math.max(size.x, size.y, size.z)` over the bounding-box size of a
geometry, as read in `fitCameraToModel`. -/
def geomMaxDim (g : MeshGeometry) : ℝ :=
  let size := boxSizeD (computeBB g.positions)
  max size.x (max size.y size.z)

/-- The largest axis size of an explicit bounding box, for stating the
view-fit monotonicity property. -/
def boxMaxDim (b : Box3) : ℝ :=
  max (b.max.x - b.min.x) (max (b.max.y - b.min.y) (b.max.z - b.min.z))

/-- A well-formed bounding box: `min <= max` on every axis. -/
def boxWF (b : Box3) : Prop :=
  b.min.x ≤ b.max.x ∧ b.min.y ≤ b.max.y ∧ b.min.z ≤ b.max.z

/-- `fitCameraToModel(geometry)`: recompute the bounding box, take the largest
axis size, convert `camera.fov` to radians, compute the padded fit distance
`cameraZ`, set the camera position to `(cameraZ, cameraZ, cameraZ)` and the
controls target to the origin.  (`camera.lookAt(0,0,0)` only reorients the
camera and is not part of the positional state modelled here.) -/
def fitCameraToModel (s : ViewerState) (g : MeshGeometry) : ViewerState :=
  let cameraZ := fitDistance (geomMaxDim g) (fovRadOf s)
  { s with cameraPosition := ⟨cameraZ, cameraZ, cameraZ⟩, controlsTarget := ⟨0, 0, 0⟩ }

/-- `resetCameraView()`: a no-op without a model, otherwise an instant
`fitCameraToModel` on the current model's geometry. -/
def resetCameraView (s : ViewerState) : ViewerState :=
  match s.currentModel with
  | none => s
  | some g => fitCameraToModel s g

/-- The data captured by the closure in `animateCameraToPosition`: the start
snapshot of camera position and controls target, the requested end position,
`startTime = Date.now()` and the fixed `duration = 1000`. -/
structure Transition where
  startPosition : Vec3
  startTarget : Vec3
  targetPosition : Vec3
  startTime : ℝ
  duration : ℝ

/-- `Math.min(elapsed / duration, 1)` with `elapsed = now - startTime`. -/
def progressOf (tr : Transition) (now : ℝ) : ℝ :=
  min ((now - tr.startTime) / tr.duration) 1

/-- The cubic ease-out `1 - Math.pow(1 - progress, 3)`. -/
def easeOut (progress : ℝ) : ℝ :=
  1 - (1 - progress) ^ 3

/-- One invocation of the `animate` closure in `animateCameraToPosition`:
lerp the camera position from the start snapshot toward the target and the
controls target toward the origin by the eased progress; when `progress < 1`
the closure reschedules itself (state unchanged here), otherwise it clears
`isTransitioning`. -/
def animateStep (s : ViewerState) (tr : Transition) (now : ℝ) : ViewerState :=
  { s with
    cameraPosition := lerpVectors tr.startPosition tr.targetPosition (easeOut (progressOf tr now))
    controlsTarget := lerpVectors tr.startTarget ⟨0, 0, 0⟩ (easeOut (progressOf tr now))
    isTransitioning := if progressOf tr now < 1 then s.isTransitioning else false }

/-- `animateCameraToPosition(targetPosition)` called at wall-clock `now`:
capture the start snapshot, fix `duration = 1000`, record `startTime = now`,
and run the `animate` closure once synchronously.  Returns the updated state
and the started transition (the closure's captured data). -/
def animateCameraToPosition (s : ViewerState) (targetPosition : Vec3) (now : ℝ) :
    ViewerState × Option Transition :=
  let tr : Transition :=
    { startPosition := s.cameraPosition
      startTarget := s.controlsTarget
      targetPosition := targetPosition
      startTime := now
      duration := 1000 }
  (animateStep s tr now, some tr)

/-- The view identifiers accepted by `setCameraViewSmooth`; every string
other than the six directional presets (the `reset` option included) falls
into the `switch` statement's `default` branch, modelled by `other`. -/
inductive CameraView where
  | top
  | bottom
  | front
  | back
  | lft
  | rgt
  | other

/-- `setCameraViewSmooth(view)` at wall-clock `now`:
`if (!this.currentModel || this.isTransitioning) return;` — then set
`isTransitioning = true`, take the current camera distance
`this.camera.position.length()`, pick the axis-aligned target position, and
start the animation; the `default` branch calls `resetCameraView` and
returns (leaving the just-set `isTransitioning` flag true, as the source
does).  Returns the updated state and the started transition, if any. -/
def setCameraViewSmooth (s : ViewerState) (view : CameraView) (now : ℝ) :
    ViewerState × Option Transition :=
  match s.currentModel, s.isTransitioning with
  | none, _ => (s, none)
  | some _, true => (s, none)
  | some _, false =>
      let s1 := { s with isTransitioning := true }
      let distance := vlength s.cameraPosition
      match view with
      | .top => animateCameraToPosition s1 ⟨0, distance, 0⟩ now
      | .bottom => animateCameraToPosition s1 ⟨0, -distance, 0⟩ now
      | .front => animateCameraToPosition s1 ⟨0, 0, distance⟩ now
      | .back => animateCameraToPosition s1 ⟨0, 0, -distance⟩ now
      | .lft => animateCameraToPosition s1 ⟨-distance, 0, 0⟩ now
      | .rgt => animateCameraToPosition s1 ⟨distance, 0, 0⟩ now
      | .other => (resetCameraView s1, none)

/-- Modelled from the spec: the Metrics Engine of §4.2 resolves triangles
"through consecutive vertex triplets" when no index buffer is present.  This
definition follows the spec's words (the source's non-indexed loop differs;
see `accumUnindexed`): chunk the vertex list into consecutive runs of 3. -/
def specTriangles : List Vec3 → List (Vec3 × Vec3 × Vec3)
  | v1 :: v2 :: v3 :: rest => (v1, v2, v3) :: specTriangles rest
  | _ => []

/-- Modelled from the spec: the surface area of an unindexed mesh per §4.2,
summing `calculateTriangleArea` over the consecutive triplets. -/
def specSurfaceAreaUnindexed (pos : List Vec3) : ℝ :=
  (specTriangles pos).foldl (fun s t => s + calculateTriangleArea t.1 t.2.1 t.2.2) 0

/-! ### Helper lemmas -/

/-- Subtracting the zero vector is the identity. -/
lemma subVectors_zero (v : Vec3) : subVectors v ⟨0, 0, 0⟩ = v := by
  ext <;> simp [subVectors]

/-- `expandByPoint` commutes with a uniform translation of box and point. -/
lemma expandByPoint_sub (b : Box3) (v c : Vec3) :
    expandByPoint ⟨subVectors b.min c, subVectors b.max c⟩ (subVectors v c)
      = ⟨subVectors (expandByPoint b v).min c, subVectors (expandByPoint b v).max c⟩ := by
  refine Box3.ext ?_ ?_ <;> ext <;>
    simp [expandByPoint, subVectors, min_sub_sub_right, max_sub_sub_right]

/-- The bounding-box fold commutes with a uniform translation. -/
lemma foldl_expand_sub (c : Vec3) (vs : List Vec3) (b : Box3) :
    (vs.map (fun v => subVectors v c)).foldl expandByPoint
        ⟨subVectors b.min c, subVectors b.max c⟩
      = ⟨subVectors (vs.foldl expandByPoint b).min c,
         subVectors (vs.foldl expandByPoint b).max c⟩ := by
  induction vs generalizing b with
  | nil => rfl
  | cons v vs ih =>
      simp only [List.map_cons, List.foldl_cons, expandByPoint_sub]
      exact ih _

/-- Translating every vertex translates the computed bounding box. -/
lemma computeBB_map_sub (l : List Vec3) (c : Vec3) :
    computeBB (l.map (fun v => subVectors v c))
      = (computeBB l).map (fun b => ⟨subVectors b.min c, subVectors b.max c⟩) := by
  cases l with
  | nil => rfl
  | cons v vs =>
      simp only [List.map_cons, computeBB, Option.map_some]
      rw [foldl_expand_sub c vs ⟨v, v⟩]
      rfl

/-! ### Claims -/

/-- C6: while a transition is in flight (`isTransitioning = true`), a new
view request through `setCameraViewSmooth` is a defined no-op: the viewer
state is returned unchanged and no new transition is created, so the
in-flight transition's end pose, start snapshot, start time and duration are
untouched and it completes toward its original target. -/
theorem c6_reentrant_request_noop (s : ViewerState) (v : CameraView) (now : ℝ)
    (h : s.isTransitioning = true) :
    setCameraViewSmooth s v now = (s, none) := by
  cases hm : s.currentModel <;> simp [setCameraViewSmooth, hm, h]

/-- Concrete instantiation of `c6_reentrant_request_noop`. -/
def sTrans : ViewerState :=
  { cameraPosition := ⟨5, 5, 5⟩
    controlsTarget := ⟨0, 0, 0⟩
    cameraFov := 75
    isTransitioning := true
    currentModel := some ⟨[⟨0, 0, 0⟩], none⟩ }

theorem c6_witness :
    sTrans.isTransitioning = true ∧
      setCameraViewSmooth sTrans CameraView.top 500 = (sTrans, none) :=
  ⟨rfl, c6_reentrant_request_noop sTrans CameraView.top 500 rfl⟩

/-- C10: with no model loaded (`currentModel = null`), `setCameraViewSmooth`
is a no-op for every view identifier (the six presets and the `default`
branch that `reset` falls into): camera position, controls target and
transition state are all unchanged, and no transition starts. -/
theorem c10_no_model_noop (s : ViewerState) (v : CameraView) (now : ℝ)
    (h : s.currentModel = none) :
    setCameraViewSmooth s v now = (s, none) := by
  simp [setCameraViewSmooth, h]

/-- Concrete instantiation of `c10_no_model_noop`. -/
def sEmpty : ViewerState :=
  { cameraPosition := ⟨5, 5, 5⟩
    controlsTarget := ⟨1, 1, 1⟩
    cameraFov := 75
    isTransitioning := false
    currentModel := none }

theorem c10_witness :
    sEmpty.currentModel = none ∧
      setCameraViewSmooth sEmpty CameraView.other 500 = (sEmpty, none) :=
  ⟨rfl, c10_no_model_noop sEmpty CameraView.other 500 rfl⟩

/-- C5: stepping the animation at `now = startTime + duration` or later
yields `progress = 1` and `eased = 1`, writes the camera position exactly to
the transition's target position and the controls target exactly to the
origin (the transition's end target), and clears `isTransitioning`, leaving
the controller idle. -/
theorem c5_advance_at_end_completes (s : ViewerState) (tr : Transition) (now : ℝ)
    (hdur : tr.duration = 1000) (hnow : tr.startTime + tr.duration ≤ now) :
    progressOf tr now = 1 ∧
    easeOut (progressOf tr now) = 1 ∧
    (animateStep s tr now).cameraPosition = tr.targetPosition ∧
    (animateStep s tr now).controlsTarget = ⟨0, 0, 0⟩ ∧
    (animateStep s tr now).isTransitioning = false := by
  have hp : progressOf tr now = 1 := by
    unfold progressOf
    rw [hdur] at hnow ⊢
    have h1 : (1 : ℝ) ≤ (now - tr.startTime) / 1000 := by
      rw [le_div_iff₀ (by norm_num : (0 : ℝ) < 1000)]
      linarith
    exact min_eq_right h1
  have he : easeOut (progressOf tr now) = 1 := by rw [hp]; norm_num [easeOut]
  refine ⟨hp, he, ?_, ?_, ?_⟩
  · show lerpVectors tr.startPosition tr.targetPosition (easeOut (progressOf tr now)) = _
    rw [he]; ext <;> simp [lerpVectors]
  · show lerpVectors tr.startTarget ⟨0, 0, 0⟩ (easeOut (progressOf tr now)) = _
    rw [he]; ext <;> simp [lerpVectors]
  · show (if progressOf tr now < 1 then s.isTransitioning else false) = false
    rw [hp]; simp

/-- Concrete instantiation of `c5_advance_at_end_completes`. -/
def trW : Transition :=
  { startPosition := ⟨1, 2, 3⟩
    startTarget := ⟨4, 5, 6⟩
    targetPosition := ⟨7, 8, 9⟩
    startTime := 0
    duration := 1000 }

def sW5 : ViewerState :=
  { cameraPosition := ⟨1, 2, 3⟩
    controlsTarget := ⟨4, 5, 6⟩
    cameraFov := 75
    isTransitioning := true
    currentModel := none }

theorem c5_witness :
    trW.duration = 1000 ∧ trW.startTime + trW.duration ≤ 1500 ∧
    (progressOf trW 1500 = 1 ∧
     easeOut (progressOf trW 1500) = 1 ∧
     (animateStep sW5 trW 1500).cameraPosition = trW.targetPosition ∧
     (animateStep sW5 trW 1500).controlsTarget = ⟨0, 0, 0⟩ ∧
     (animateStep sW5 trW 1500).isTransitioning = false) :=
  ⟨rfl, by norm_num [trW], c5_advance_at_end_completes sW5 trW 1500 rfl (by norm_num [trW])⟩

/-- C7: the geometry-centering step of `createModelFromGeometry` is
idempotent: centering an already centered mesh translates by the zero vector
(the bounding-box center of the centered mesh is the origin), so applying it
twice equals applying it once. -/
theorem c7_centerGeometry_idempotent (g : MeshGeometry) :
    centerGeometry (centerGeometry g) = centerGeometry g := by
  cases hbb : computeBB g.positions with
  | none =>
      have hl : g.positions = [] := by
        cases hp : g.positions with
        | nil => rfl
        | cons v vs => rw [hp] at hbb; exact absurd hbb (by simp [computeBB])
      simp [centerGeometry, hl, computeBB, getCenterD]
  | some b =>
      have h1 : centerGeometry g
          = { g with positions :=
                g.positions.map (fun v => subVectors v (getCenterD (some b))) } := by
        simp [centerGeometry, hbb]
      have hbb2 : computeBB (g.positions.map
            (fun v => subVectors v (getCenterD (some b))))
          = some ⟨subVectors b.min (getCenterD (some b)),
                  subVectors b.max (getCenterD (some b))⟩ := by
        rw [computeBB_map_sub, hbb]; rfl
      have hc2 : getCenterD (some (⟨subVectors b.min (getCenterD (some b)),
            subVectors b.max (getCenterD (some b))⟩ : Box3)) = ⟨0, 0, 0⟩ := by
        ext <;> simp [getCenterD, subVectors] <;> ring
      rw [h1]
      simp [centerGeometry, hbb2, hc2, subVectors_zero]

/-- The absolute value in `fitDistance` disappears for a non-negative
dimension and a positive tangent. -/
lemma fitDistance_of_nonneg (m f : ℝ) (hm : 0 ≤ m) (ht : 0 < Real.tan (f / 2)) :
    fitDistance m f = m / 2 / Real.tan (f / 2) * 2.5 := by
  unfold fitDistance
  rw [abs_of_nonneg (div_nonneg (div_nonneg hm (by norm_num)) ht.le)]

/-- The largest axis size of a well-formed box is non-negative. -/
lemma boxMaxDim_nonneg (b : Box3) (hb : boxWF b) : 0 ≤ boxMaxDim b :=
  le_trans (sub_nonneg.2 hb.1) (le_max_left _ _)

/-- `tan (fov / 2)` is positive on the valid fov range `(0, π)`. -/
lemma tan_half_pos (f : ℝ) (h0 : 0 < f) (hpi : f < Real.pi) :
    0 < Real.tan (f / 2) :=
  Real.tan_pos_of_pos_of_lt_pi_div_two (by linarith) (by linarith)

/-- C8: the fit distance computed by `fitCameraToModel` is monotonically
increasing in the largest bounding-box axis size (at a fixed valid fov) and
monotonically decreasing in the vertical fov over `(0, π)` (at a fixed box). -/
theorem c8_fitDistance_monotone (b1 b2 : Box3) (fov fov1 fov2 : ℝ)
    (hb1 : boxWF b1) (hb2 : boxWF b2)
    (hm : boxMaxDim b1 ≤ boxMaxDim b2)
    (hfov0 : 0 < fov) (hfovpi : fov < Real.pi)
    (h1 : 0 < fov1) (h12 : fov1 ≤ fov2) (h2 : fov2 < Real.pi) :
    fitDistance (boxMaxDim b1) fov ≤ fitDistance (boxMaxDim b2) fov ∧
    fitDistance (boxMaxDim b1) fov2 ≤ fitDistance (boxMaxDim b1) fov1 := by
  have hm1 : 0 ≤ boxMaxDim b1 := boxMaxDim_nonneg b1 hb1
  have hm2 : 0 ≤ boxMaxDim b2 := boxMaxDim_nonneg b2 hb2
  have ht : 0 < Real.tan (fov / 2) := tan_half_pos fov hfov0 hfovpi
  have ht1 : 0 < Real.tan (fov1 / 2) := tan_half_pos fov1 h1 (lt_of_le_of_lt h12 h2)
  have ht2 : 0 < Real.tan (fov2 / 2) := tan_half_pos fov2 (lt_of_lt_of_le h1 h12) h2
  have htm : Real.tan (fov1 / 2) ≤ Real.tan (fov2 / 2) := by
    have hmem1 : fov1 / 2 ∈ Set.Ioo (-(Real.pi / 2)) (Real.pi / 2) :=
      ⟨by linarith [Real.pi_pos], by linarith⟩
    have hmem2 : fov2 / 2 ∈ Set.Ioo (-(Real.pi / 2)) (Real.pi / 2) :=
      ⟨by linarith [Real.pi_pos], by linarith⟩
    exact Real.strictMonoOn_tan.monotoneOn hmem1 hmem2 (by linarith)
  constructor
  · rw [fitDistance_of_nonneg _ _ hm1 ht, fitDistance_of_nonneg _ _ hm2 ht]
    gcongr
  · rw [fitDistance_of_nonneg _ _ hm1 ht1, fitDistance_of_nonneg _ _ hm1 ht2]
    gcongr

/-- Concrete boxes for the monotonicity witness. -/
def boxA : Box3 := ⟨⟨0, 0, 0⟩, ⟨1, 1, 1⟩⟩

def boxB : Box3 := ⟨⟨0, 0, 0⟩, ⟨2, 2, 2⟩⟩

theorem c8_witness :
    boxWF boxA ∧ boxWF boxB ∧ boxMaxDim boxA ≤ boxMaxDim boxB ∧
    (0 : ℝ) < Real.pi / 3 ∧ Real.pi / 3 ≤ Real.pi / 2 ∧ Real.pi / 2 < Real.pi ∧
    (fitDistance (boxMaxDim boxA) (Real.pi / 2)
        ≤ fitDistance (boxMaxDim boxB) (Real.pi / 2) ∧
     fitDistance (boxMaxDim boxA) (Real.pi / 2)
        ≤ fitDistance (boxMaxDim boxA) (Real.pi / 3)) :=
  ⟨by norm_num [boxWF, boxA], by norm_num [boxWF, boxB],
   by norm_num [boxMaxDim, boxA, boxB],
   by linarith [Real.pi_pos], by linarith [Real.pi_pos], by linarith [Real.pi_pos],
   c8_fitDistance_monotone boxA boxB (Real.pi / 2) (Real.pi / 3) (Real.pi / 2)
     (by norm_num [boxWF, boxA]) (by norm_num [boxWF, boxB])
     (by norm_num [boxMaxDim, boxA, boxB])
     (by linarith [Real.pi_pos]) (by linarith [Real.pi_pos])
     (by linarith [Real.pi_pos]) (by linarith [Real.pi_pos])
     (by linarith [Real.pi_pos])⟩

/-- C2 (amended): `fitCameraToModel` computes
`distance = |maxDim / 2 / tan(fov/2)| * 2.5` and sets the camera position to
`(distance, distance, distance)` — i.e. along the `(1,1,1)` direction — with
the controls target at the origin; the camera's Euclidean distance from the
origin is therefore `distance * sqrt 3`, not `distance` itself. -/
theorem c2_fit_pose (s : ViewerState) (g : MeshGeometry) :
    (fitCameraToModel s g).cameraPosition
        = ⟨fitDistance (geomMaxDim g) (fovRadOf s),
           fitDistance (geomMaxDim g) (fovRadOf s),
           fitDistance (geomMaxDim g) (fovRadOf s)⟩ ∧
    (fitCameraToModel s g).controlsTarget = ⟨0, 0, 0⟩ ∧
    vlength (fitCameraToModel s g).cameraPosition
        = fitDistance (geomMaxDim g) (fovRadOf s) * Real.sqrt 3 := by
  refine ⟨rfl, rfl, ?_⟩
  have hd0 : 0 ≤ fitDistance (geomMaxDim g) (fovRadOf s) := by
    unfold fitDistance; positivity
  show vlength ⟨fitDistance (geomMaxDim g) (fovRadOf s),
      fitDistance (geomMaxDim g) (fovRadOf s),
      fitDistance (geomMaxDim g) (fovRadOf s)⟩ = _
  set d := fitDistance (geomMaxDim g) (fovRadOf s)
  unfold vlength vdot
  rw [show (d * d + d * d + d * d : ℝ) = 3 * (d * d) by ring,
    Real.sqrt_mul (by norm_num : (0 : ℝ) ≤ 3), Real.sqrt_mul_self hd0,
    mul_comm]

/-- A viewer state with the default 75-degree fov replaced by 90 degrees,
making `tan(fov/2) = 1` exactly. -/
def s90 : ViewerState :=
  { cameraPosition := ⟨5, 5, 5⟩
    controlsTarget := ⟨0, 0, 0⟩
    cameraFov := 90
    isTransitioning := false
    currentModel := none }

/-- A two-vertex geometry with bounding box `[-1,1]^3`, hence `maxDim = 2`. -/
def gBox : MeshGeometry := ⟨[⟨-1, -1, -1⟩, ⟨1, 1, 1⟩], none⟩

lemma geomMaxDim_gBox : geomMaxDim gBox = 2 := by
  show max ((boxSizeD (computeBB gBox.positions)).x) _ = 2
  have hbb : computeBB gBox.positions
      = some ⟨⟨-1, -1, -1⟩, ⟨1, 1, 1⟩⟩ := by
    show some (expandByPoint ⟨⟨-1, -1, -1⟩, ⟨-1, -1, -1⟩⟩ ⟨1, 1, 1⟩) = _
    norm_num [expandByPoint]
  rw [hbb]
  norm_num [boxSizeD, subVectors]

lemma fitDistance_two_ninety : fitDistance 2 (Real.pi / 2) = 2.5 := by
  unfold fitDistance
  rw [show Real.pi / 2 / 2 = Real.pi / 4 by ring, Real.tan_pi_div_four]
  norm_num

/-- C2 (counterexample): for a 90-degree fov and a `maxDim = 2` box the
computed distance is `2.5` and the camera lands at `(2.5, 2.5, 2.5)` — whose
distance from the origin-centered model is `2.5 * sqrt 3`, NOT `2.5`, so the
camera is not "at exactly that distance" as the claim states. -/
theorem c2_counterexample :
    fitDistance (geomMaxDim gBox) (fovRadOf s90) = 2.5 ∧
    (fitCameraToModel s90 gBox).cameraPosition = ⟨2.5, 2.5, 2.5⟩ ∧
    vlength (fitCameraToModel s90 gBox).cameraPosition ≠ 2.5 := by
  have hfov : fovRadOf s90 = Real.pi / 2 := by
    show (90 : ℝ) * (Real.pi / 180) = Real.pi / 2
    ring
  have hd : fitDistance (geomMaxDim gBox) (fovRadOf s90) = 2.5 := by
    rw [geomMaxDim_gBox, hfov]; exact fitDistance_two_ninety
  have hpos : (fitCameraToModel s90 gBox).cameraPosition
      = ⟨fitDistance (geomMaxDim gBox) (fovRadOf s90),
         fitDistance (geomMaxDim gBox) (fovRadOf s90),
         fitDistance (geomMaxDim gBox) (fovRadOf s90)⟩ := rfl
  refine ⟨hd, by rw [hpos, hd], ?_⟩
  rw [hpos, hd]
  unfold vlength vdot
  intro h
  have hsq := Real.sq_sqrt
    (show (0 : ℝ) ≤ 2.5 * 2.5 + 2.5 * 2.5 + 2.5 * 2.5 by norm_num)
  rw [h] at hsq
  norm_num at hsq

/-- C9 (amended): the view-fit calculation never reports an error — it is a
total function of `maxDim` and `fov` — but the absolute value in the source
does guarantee the computed distance is never negative, for every fov,
invalid ones included. -/
theorem c9_fitDistance_nonneg (maxDim fov : ℝ) : 0 ≤ fitDistance maxDim fov := by
  unfold fitDistance
  positivity

/-- A viewer state whose fov converts to the invalid value `-π/2` radians. -/
def sNeg : ViewerState :=
  { cameraPosition := ⟨5, 5, 5⟩
    controlsTarget := ⟨0, 0, 0⟩
    cameraFov := -90
    isTransitioning := false
    currentModel := none }

/-- C9 (counterexample): at the invalid fov `-π/2 ≤ 0` the view-fit
calculation reports no error: it computes the ordinary distance `2.5` and
moves the camera to `(2.5, 2.5, 2.5)` exactly as for a valid fov. -/
theorem c9_counterexample :
    fovRadOf sNeg ≤ 0 ∧
    fitDistance (geomMaxDim gBox) (fovRadOf sNeg) = 2.5 ∧
    (fitCameraToModel sNeg gBox).cameraPosition = ⟨2.5, 2.5, 2.5⟩ := by
  have hfov : fovRadOf sNeg = -(Real.pi / 2) := by
    show (-90 : ℝ) * (Real.pi / 180) = -(Real.pi / 2)
    ring
  have hd : fitDistance (geomMaxDim gBox) (fovRadOf sNeg) = 2.5 := by
    rw [geomMaxDim_gBox, hfov]
    unfold fitDistance
    rw [show -(Real.pi / 2) / 2 = -(Real.pi / 4) by ring, Real.tan_neg,
      Real.tan_pi_div_four]
    norm_num
  have hneg : fovRadOf sNeg ≤ 0 := by
    rw [hfov]
    have := Real.pi_pos
    linarith
  have hpos : (fitCameraToModel sNeg gBox).cameraPosition
      = ⟨fitDistance (geomMaxDim gBox) (fovRadOf sNeg),
         fitDistance (geomMaxDim gBox) (fovRadOf sNeg),
         fitDistance (geomMaxDim gBox) (fovRadOf sNeg)⟩ := rfl
  exact ⟨hneg, hd, by rw [hpos, hd]⟩

/-- Modelled from the spec: the §3 invariant "triangle count =
`indices.length/3` if indices present, else `vertices.length/3`", with
integer division dropping any remainder (§4.2). -/
def specTriangleCount (g : MeshGeometry) : ℕ :=
  match g.index with
  | some idx => idx.length / 3
  | none => g.positions.length / 3

/-- Real floor of the float quotient `m / 3` equals natural division. -/
lemma floor_nat_div_three (m : ℕ) : ⌊(m : ℝ) / 3⌋ = ((m / 3 : ℕ) : ℤ) := by
  rw [Int.floor_eq_iff]
  constructor
  · rw [le_div_iff₀ (by norm_num : (0 : ℝ) < 3)]
    have h1 : (m / 3) * 3 ≤ m := Nat.div_mul_le_self m 3
    exact_mod_cast h1
  · rw [div_lt_iff₀ (by norm_num : (0 : ℝ) < 3)]
    have h2 : m < (m / 3 + 1) * 3 := by omega
    push_cast
    exact_mod_cast h2

/-- C4 (amended): the `faces` value stored by `calculateModelStats` is the
exact (possibly fractional) quotient `count / 3`; only the display layer
applies `Math.floor`, so the DISPLAYED face count equals the integer-division
triangle count and is a non-negative integer. -/
theorem c4_displayed_faceCount (g : MeshGeometry) :
    displayedFaceCount (calculateModelStats g) = (specTriangleCount g : ℤ) ∧
    0 ≤ displayedFaceCount (calculateModelStats g) := by
  have h : displayedFaceCount (calculateModelStats g) = (specTriangleCount g : ℤ) := by
    unfold displayedFaceCount specTriangleCount
    cases hidx : g.index with
    | none =>
        have hf : (calculateModelStats g).faces = (g.positions.length : ℝ) / 3 := by
          simp [calculateModelStats, hidx]
        rw [hf, floor_nat_div_three]
    | some idx =>
        have hf : (calculateModelStats g).faces = (idx.length : ℝ) / 3 := by
          simp [calculateModelStats, hidx]
        rw [hf, floor_nat_div_three]
  exact ⟨h, h ▸ Int.natCast_nonneg _⟩

/-- An unindexed mesh whose vertex count (4) is not a multiple of 3. -/
def g4 : MeshGeometry := ⟨[⟨0, 0, 0⟩, ⟨1, 0, 0⟩, ⟨0, 1, 0⟩, ⟨0, 0, 1⟩], none⟩

/-- C4 (counterexample): for 4 unindexed vertices `calculateModelStats`
stores `faces = 4/3` — a non-integer real, not the integer-division triangle
count `1` the claim asserts. -/
theorem c4_counterexample :
    (calculateModelStats g4).faces = 4 / 3 ∧
    (calculateModelStats g4).faces ≠ (specTriangleCount g4 : ℝ) := by
  have hf : (calculateModelStats g4).faces = (4 : ℝ) / 3 := by
    show ((g4.positions.length : ℝ)) / 3 = 4 / 3
    norm_num [g4]
  have hc : specTriangleCount g4 = 1 := by
    show g4.positions.length / 3 = 1
    norm_num [g4]
  refine ⟨hf, ?_⟩
  rw [hf, hc]
  norm_num

/-- A mesh whose index buffer references vertex 5 while only 3 vertices
exist — the malformed-mesh case of §7. -/
def gMal : MeshGeometry := ⟨[⟨0, 0, 0⟩, ⟨1, 0, 0⟩, ⟨0, 1, 0⟩], some [0, 1, 5]⟩

/-- C3: evaluation of the code at a malformed mesh (index 5 with 3 vertices).
The source performs no index validation: `calculateModelStats` runs to
completion and stores a full statistics record (the out-of-range read
propagates a junk vertex — NaN in JS, the zero vector here) instead of
raising the malformed-mesh error the claim requires. -/
theorem c3_no_validation_eval :
    (calculateModelStats gMal).vertices = 3 ∧
    (calculateModelStats gMal).faces = 1 ∧
    (calculateModelStats gMal).surfaceArea = 0 ∧
    (calculateModelStats gMal).volume = 0 := by
  have hloop : accumIndexed [(⟨0, 0, 0⟩ : Vec3), ⟨1, 0, 0⟩, ⟨0, 1, 0⟩]
      [0, 1, 5] 3 0 0 = (0, 0) := by
    simp [accumIndexed]
  have hloop0 : accumIndexed gMal.positions [0, 1, 5] 0 0 0 = (0, 0) := by
    rw [accumIndexed]
    norm_num [gMal, List.getD, calculateTriangleArea, calculateSignedVolume,
      crossVectors, subVectors, vdot, vlength, Real.sqrt_zero, hloop]
  have hsv : calculateSurfaceAreaAndVolume gMal = (0, 0) := by
    show (let r := accumIndexed gMal.positions [0, 1, 5] 0 0 0; (r.1, |r.2|)) = (0, 0)
    rw [hloop0]
    norm_num
  refine ⟨rfl, by norm_num [calculateModelStats, gMal], ?_, ?_⟩
  · show (calculateSurfaceAreaAndVolume gMal).1 = 0
    rw [hsv]
  · show (calculateSurfaceAreaAndVolume gMal).2 = 0
    rw [hsv]

/-- An unindexed mesh of 9 vertices forming three triangles of areas
`1/2`, `2` and `9/2` (total `7`); vertices 0, 3 and 6 — the ones the
source's stride-9 loop actually reads — are all the origin. -/
def mesh9 : MeshGeometry :=
  ⟨[⟨0, 0, 0⟩, ⟨1, 0, 0⟩, ⟨0, 1, 0⟩,
    ⟨0, 0, 0⟩, ⟨2, 0, 0⟩, ⟨0, 2, 0⟩,
    ⟨0, 0, 0⟩, ⟨3, 0, 0⟩, ⟨0, 3, 0⟩], none⟩

/-- C1: evaluation of the code at an unindexed 9-vertex mesh.  The source's
non-indexed loop advances by 9 vertices per iteration and reads vertices
`i`, `i+3`, `i+6` (`getX` takes a vertex index, not a flat component
offset), so it processes the single degenerate triangle `(v0, v3, v6)` and
returns zero surface area — while resolving "consecutive runs of 3
vertices", as the claim states, gives the three triangles with total area
`7`. -/
theorem c1_unindexed_loop_eval :
    calculateSurfaceAreaAndVolume mesh9 = (0, 0) ∧
    specSurfaceAreaUnindexed mesh9.positions = 7 := by
  constructor
  · have hloop : accumUnindexed
        [(⟨0, 0, 0⟩ : Vec3), ⟨1, 0, 0⟩, ⟨0, 1, 0⟩,
         ⟨0, 0, 0⟩, ⟨2, 0, 0⟩, ⟨0, 2, 0⟩,
         ⟨0, 0, 0⟩, ⟨3, 0, 0⟩, ⟨0, 3, 0⟩] 9 0 0 = (0, 0) := by
      simp [accumUnindexed]
    have hloop0 : accumUnindexed mesh9.positions 0 0 0 = (0, 0) := by
      rw [accumUnindexed]
      norm_num [mesh9, List.getD, calculateTriangleArea, calculateSignedVolume,
        crossVectors, subVectors, vdot, vlength, Real.sqrt_zero, hloop]
    show (let r := accumUnindexed mesh9.positions 0 0 0; (r.1, |r.2|)) = (0, 0)
    rw [hloop0]
    norm_num
  · have h16 : Real.sqrt 16 = 4 := by
      rw [show (16 : ℝ) = 4 ^ 2 by norm_num]
      exact Real.sqrt_sq (by norm_num)
    have h81 : Real.sqrt 81 = 9 := by
      rw [show (81 : ℝ) = 9 ^ 2 by norm_num]
      exact Real.sqrt_sq (by norm_num)
    show specSurfaceAreaUnindexed
        [⟨0, 0, 0⟩, ⟨1, 0, 0⟩, ⟨0, 1, 0⟩,
         ⟨0, 0, 0⟩, ⟨2, 0, 0⟩, ⟨0, 2, 0⟩,
         ⟨0, 0, 0⟩, ⟨3, 0, 0⟩, ⟨0, 3, 0⟩] = 7
    norm_num [specSurfaceAreaUnindexed, specTriangles, calculateTriangleArea,
      crossVectors, subVectors, vdot, vlength, Real.sqrt_one, h16, h81]

end

end STLV
